import Mathlib

/-!
Shallow embedding of `google_ads_api_scripts/generate_refresh_token.py`.

The script is a linear interactive OAuth flow. External effects (the
credential file on disk, the operator's pasted line, the OAuth library's
authorization URL and token exchange) are inputs of the model (`RunEnv`);
the script's behaviour is a pure function from that environment to a trace
of events (prints, the authorization-URL build, the interactive read, the
token-exchange call) together with an optional uncaught Python exception.
-/

namespace GenRefreshToken

/-- Embeds `CREDENTIALS_FILE = "client_secret.json"` (line 9). -/
def CREDENTIALS_FILE : String := "client_secret.json"

/-- Embeds `REDIRECT_URI = "http://localhost:8080/callback"` (line 13). -/
def REDIRECT_URI : String := "http://localhost:8080/callback"

/-- Embeds `SCOPES = ['https://www.googleapis.com/auth/adwords']` (line 16). -/
def SCOPES : List String := ["https://www.googleapis.com/auth/adwords"]

/-- Embeds the inner object of the client-secret JSON: `client_id`,
`client_secret`, and an optional `redirect_uris` list (`none` models the key
being absent from the JSON object). -/
structure ClientInfo where
  client_id : String
  client_secret : String
  redirect_uris : Option (List String)
deriving DecidableEq

/-- Embeds the top level of the parsed client-secret JSON: each of the two
recognised keys `"web"` and `"installed"` is present (`some`) or absent
(`none`). -/
structure Creds where
  web : Option ClientInfo
  installed : Option ClientInfo
deriving DecidableEq

/-- Outcome of opening and JSON-parsing the credential file: the file is
missing (`open` raises), its contents are not JSON (`json.load` raises), or
it parses to a top-level object. -/
inductive FileOutcome where
  | missing
  | notJson
  | parsed (creds : Creds)
deriving DecidableEq

/-- Embeds the Python exceptions the script can die of: `FileNotFoundError`
from `open`, `json.JSONDecodeError` from `json.load`, `KeyError` from the
`creds[client_type]` lookup, and `ValueError` from
`Flow.from_client_secrets_file` on a config with neither recognised key. -/
inductive PyError where
  | fileNotFound
  | jsonDecodeError
  | keyError (key : String)
  | valueError
deriving DecidableEq

/-- Embeds `"=" * 60`, the separator line printed by the script. -/
def sepLine : String := String.mk (List.replicate 60 '=')

/-- Embeds `client_type = 'web' if 'web' in creds else 'installed'` (line 23). -/
def clientTypeOf (creds : Creds) : String :=
  if creds.web.isSome then "web" else "installed"

/-- Embeds the dict access `creds[k]` on the parsed top-level object for the
two keys the script can ask for (`none` models a `KeyError`). -/
def lookupKey (creds : Creds) (k : String) : Option ClientInfo :=
  if k = "web" then creds.web
  else if k = "installed" then creds.installed
  else none

/-- Embeds lines 32-37: the redirect-URI section of the printed summary. -/
def redirectUriLines (client_info : ClientInfo) : List String :=
  match client_info.redirect_uris with
  | some uris => "Configured Redirect URIs:" :: uris.map (fun uri => "  - " ++ uri)
  | none => ["No redirect URIs found in the JSON file"]

/-- Embeds the print calls of `show_oauth_client_info` (lines 26-38), one
string per `print` call. -/
def inspectLines (client_info : ClientInfo) (client_type : String) : List String :=
  [sepLine,
   "YOUR OAUTH CLIENT INFO:",
   sepLine,
   "Client ID: " ++ client_info.client_id,
   "App Type: " ++ client_type]
  ++ redirectUriLines client_info
  ++ [sepLine]

/-- Embeds `show_oauth_client_info` (lines 18-40): reads and parses the
credential file, looks up the section named by `client_type`, prints the
summary, and returns `client_info.get('redirect_uris', [])`. An exception
anywhere (open, parse, key lookup) happens before any of the prints, so an
error carries no output. The result pairs the printed lines with the
returned list. -/
def show_oauth_client_info (file : FileOutcome) :
    Except PyError (List String × List String) :=
  match file with
  | .missing => .error .fileNotFound
  | .notJson => .error .jsonDecodeError
  | .parsed creds =>
    let client_type := clientTypeOf creds
    match lookupKey creds client_type with
    | none => .error (.keyError client_type)
    | some client_info =>
        .ok (inspectLines client_info client_type,
             client_info.redirect_uris.getD [])

/-- Embeds lines 47-53: pick `existing_uris[0]` when the list is truthy
(non-empty), else the hardcoded `REDIRECT_URI`; returns the chosen URI and
the lines printed by that branch. -/
def selectRedirectUri (existing_uris : List String) : String × List String :=
  match existing_uris with
  | uri :: _ => (uri, ["Using existing redirect URI: " ++ uri])
  | [] => (REDIRECT_URI,
      ["Using default redirect URI: " ++ REDIRECT_URI,
       "Make sure you've added this URI to your OAuth client in Google Cloud Console!"])

/-- Embeds the client config `Flow.from_client_secrets_file` ends up holding
(line 56): the external library reads the same file and keeps the `"web"`
section when present, else the `"installed"` one; with neither key it raises
`ValueError`. -/
def flowClientConfig (file : FileOutcome) : Option ClientInfo :=
  match file with
  | .parsed creds => lookupKey creds (clientTypeOf creds)
  | _ => none

/-- Embeds the keyword arguments of the authorization-URL build: the scopes
given to `Flow.from_client_secrets_file` (line 58) and the three keyword
arguments of `flow.authorization_url` (lines 63-67). -/
structure AuthUrlParams where
  scopes : List String
  access_type : String
  include_granted_scopes : String
  prompt : String
deriving DecidableEq

/-- Parameters the script passes for every authorization-URL build. -/
def fixedAuthParams : AuthUrlParams :=
  { scopes := SCOPES
    access_type := "offline"
    include_granted_scopes := "true"
    prompt := "consent" }

/-- Observable events of one run: a `print` call with its text, the
authorization-URL build with its parameters, the blocking `input` read with
its prompt, and the `flow.fetch_token` call with the string passed as
`authorization_response`. -/
inductive Event where
  | out (text : String)
  | authUrlBuilt (params : AuthUrlParams)
  | inputRead (prompt : String)
  | fetchToken (authorization_response : String)
deriving DecidableEq

/-- Behaviour of the external `flow.fetch_token` call: it returns (the flow
then holds a refresh token) or raises an exception carrying a message. -/
inductive ExchangeOutcome where
  | success (refresh_token : String)
  | raises (message : String)
deriving DecidableEq

/-- Environment of one run: the state of the credential file, the URL string
the external library returns from `authorization_url`, the raw line the
operator pastes at the `input` prompt, and what the external token exchange
does. -/
structure RunEnv where
  file : FileOutcome
  authUrl : String
  pastedLine : String
  exchange : ExchangeOutcome

/-- Characters Python's `str.strip()` removes (those with `str.isspace()`
true): ASCII whitespace (space, tab, newline, vertical tab, form feed,
carriage return), the separators U+001C-U+001F, next line U+0085, no-break
space U+00A0, ogham space mark U+1680, the typographic spaces
U+2000-U+200A, line separator U+2028, paragraph separator U+2029,
narrow no-break space U+202F, medium mathematical space U+205F, and
ideographic space U+3000. -/
def isPySpace (c : Char) : Bool :=
  [' ', '\t', '\n', '\r', Char.ofNat 11, Char.ofNat 12,
   Char.ofNat 28, Char.ofNat 29, Char.ofNat 30, Char.ofNat 31,
   Char.ofNat 133, Char.ofNat 160, Char.ofNat 5760,
   Char.ofNat 8192, Char.ofNat 8193, Char.ofNat 8194, Char.ofNat 8195,
   Char.ofNat 8196, Char.ofNat 8197, Char.ofNat 8198, Char.ofNat 8199,
   Char.ofNat 8200, Char.ofNat 8201, Char.ofNat 8202,
   Char.ofNat 8232, Char.ofNat 8233, Char.ofNat 8239,
   Char.ofNat 8287, Char.ofNat 12288].contains c

/-- Embeds `.strip()` on a character list: drop stripped characters from the
front and from the back. -/
def pyStripChars (cs : List Char) : List Char :=
  ((cs.dropWhile isPySpace).reverse.dropWhile isPySpace).reverse

/-- Embeds Python's `str.strip()` with no argument (line 79). -/
def pyStrip (s : String) : String := String.mk (pyStripChars s.data)

/-- Embeds the prints of lines 69-76 (the block presenting the URL), one
string per `print` call. -/
def stepLines (auth_url redirect_uri : String) : List String :=
  ["\n" ++ sepLine,
   "STEP 1: Visit this URL in your browser:",
   auth_url,
   sepLine,
   "\nSTEP 2: After authorizing, you'll be redirected to: " ++ redirect_uri,
   "The page might not load (that's normal for localhost).",
   "Copy the ENTIRE URL from your browser's address bar and paste it below.",
   sepLine]

/-- Embeds the prints of the success branch (lines 85-95), one string per
`print` call. -/
def successReport (cc : ClientInfo) (refresh_token : String) : List String :=
  ["\n" ++ sepLine,
   "SUCCESS! Your credentials:",
   sepLine,
   "CLIENT_ID: " ++ cc.client_id,
   "CLIENT_SECRET: " ++ cc.client_secret,
   "REFRESH_TOKEN: " ++ refresh_token,
   sepLine,
   "\nAdd these to your environment variables:",
   "GOOGLE_ADS_CLIENT_ID=" ++ cc.client_id,
   "GOOGLE_ADS_CLIENT_SECRET=" ++ cc.client_secret,
   "GOOGLE_ADS_REFRESH_TOKEN=" ++ refresh_token]

/-- Embeds the prints of the `except` branch (lines 98-102), one string per
`print` call. -/
def errorReport (message : String) : List String :=
  ["\nError: " ++ message,
   "\nCommon issues:",
   "1. Redirect URI mismatch - check your OAuth client configuration",
   "2. Invalid authorization code - try generating a new auth URL",
   "3. Network issues - check your internet connection"]

/-- Events between a successful inspection and the exchange outcome: the
inspection and selection prints, the authorization-URL build, the URL
presentation prints, the interactive read, and the `fetch_token` call. -/
def preTrace (infoLines selLines : List String)
    (auth_url redirect_uri resp : String) : List Event :=
  (infoLines ++ selLines).map Event.out
  ++ [Event.authUrlBuilt fixedAuthParams]
  ++ (stepLines auth_url redirect_uri).map Event.out
  ++ [Event.inputRead "\nPaste the full redirect URL here: ",
      Event.fetchToken resp]

/-- Embeds `generate_refresh_token` (lines 42-102). Returns the event trace
and `some e` when the run dies of an uncaught exception `e` (`none` when it
ends normally). The inspect step runs first; its exception propagates with
nothing printed. The `none` branch of `flowClientConfig` is unreachable
after a successful inspection of the same file and embeds the library's
`ValueError`. Only the `fetch_token` call sits inside the `try`, so its
failure is caught, reported with hints, and the run still ends normally. -/
def generate_refresh_token (env : RunEnv) : List Event × Option PyError :=
  match show_oauth_client_info env.file with
  | .error e => ([], some e)
  | .ok (infoLines, existing_uris) =>
    let sel := selectRedirectUri existing_uris
    match flowClientConfig env.file with
    | none => ([], some .valueError)
    | some cc =>
      let pre := preTrace infoLines sel.2 env.authUrl sel.1 (pyStrip env.pastedLine)
      match env.exchange with
      | .success rt => (pre ++ (successReport cc rt).map Event.out, none)
      | .raises m => (pre ++ (errorReport m).map Event.out, none)

/-- Texts of the `print` calls of a trace, in order. -/
def printedTexts (tr : List Event) : List String :=
  tr.filterMap (fun e => match e with | .out s => some s | _ => none)

/-- Embeds `os.environ['OAUTHLIB_INSECURE_TRANSPORT'] = '1'` (line 6), run
at module import: the process environment maps that key to `"1"` and every
other key to what it held before. -/
def moduleImport (osenv : String → Option String) : String → Option String :=
  fun k => if k = "OAUTHLIB_INSECURE_TRANSPORT" then some "1" else osenv k

/-- Embeds one whole process: module import mutates the environment once,
then `generate_refresh_token()` runs (line 105); the flow itself never
touches the process environment, so the final environment is the imported
one whatever the run does. -/
def runProgram (osenv : String → Option String) (env : RunEnv) :
    (List Event × Option PyError) × (String → Option String) :=
  (generate_refresh_token env, moduleImport osenv)

/-- Embeds the file system the inspect step touches, for the read-only
claim: `show_oauth_client_info` opens the file with mode `'r'`, so the state
it returns is the state it was given. -/
def show_oauth_client_info_st (fs : FileOutcome) :
    FileOutcome × Except PyError (List String × List String) :=
  (fs, show_oauth_client_info fs)

/-- Decides whether the head characters of `cs` spell out `ps`. -/
def listStarts : List Char → List Char → Bool
  | _, [] => true
  | [], _ :: _ => false
  | c :: cs, p :: ps => c == p && listStarts cs ps

/-- A printed string is a credential line when it starts like one of the six
credential prints of the success branch (lines 88-90 and 93-95). -/
def isCredentialReportLine (l : String) : Bool :=
  listStarts l.data "CLIENT_ID: ".data ||
  listStarts l.data "CLIENT_SECRET: ".data ||
  listStarts l.data "REFRESH_TOKEN: ".data ||
  listStarts l.data "GOOGLE_ADS_CLIENT_ID=".data ||
  listStarts l.data "GOOGLE_ADS_CLIENT_SECRET=".data ||
  listStarts l.data "GOOGLE_ADS_REFRESH_TOKEN=".data

/-- Concrete client section used by the witnesses. -/
def sampleInfo : ClientInfo :=
  { client_id := "X", client_secret := "Y",
    redirect_uris := some ["http://localhost:8080/callback"] }

/-- Concrete parsed configuration (a `"web"` client) used by the witnesses. -/
def sampleCreds : Creds := { web := some sampleInfo, installed := none }

/-- Concrete run whose exchange raises, used by the witnesses. -/
def sampleFailEnv : RunEnv :=
  { file := .parsed sampleCreds
    authUrl := "https://accounts.google.com/o/oauth2/auth?x=1"
    pastedLine := "  http://localhost:8080/callback?code=4/abc  "
    exchange := .raises "invalid_grant" }

/-- Concrete run whose exchange succeeds, used by the witnesses. -/
def sampleOkEnv : RunEnv :=
  { file := .parsed sampleCreds
    authUrl := "https://accounts.google.com/o/oauth2/auth?x=1"
    pastedLine := " http://localhost:8080/callback?code=4/abc "
    exchange := .success "R" }

/-- Concrete run whose pasted line is padded with Unicode whitespace
(ideographic space, line separator, no-break space) besides ASCII spaces,
used by the witnesses. -/
def sampleUnicodeEnv : RunEnv :=
  { file := .parsed sampleCreds
    authUrl := "https://accounts.google.com/o/oauth2/auth?x=1"
    pastedLine := "\u3000 http://localhost:8080/callback?code=4/abc\u2028\u00a0 "
    exchange := .success "R" }

/-- Concrete run whose credential file is missing, used by the witnesses. -/
def sampleMissingEnv : RunEnv :=
  { file := .missing, authUrl := "u", pastedLine := "l", exchange := .success "R" }

/-- Concrete run whose credential file is not JSON, used by the witnesses. -/
def sampleNotJsonEnv : RunEnv :=
  { file := .notJson, authUrl := "u", pastedLine := "l", exchange := .success "R" }

/-- Concrete process environment used by the witnesses. -/
def sampleOsEnv : String → Option String :=
  fun k => if k = "PATH" then some "/usr/bin" else none

/-- Concrete configuration carrying both recognised keys, used by the
witnesses. -/
def sampleBothCreds : Creds :=
  { web := some sampleInfo
    installed := some { client_id := "I", client_secret := "S", redirect_uris := none } }

/-- Concrete configuration carrying neither recognised key, used by the
witnesses. -/
def sampleEmptyCreds : Creds := { web := none, installed := none }

/-! Helper lemmas shared by the claim theorems. -/

theorem printedTexts_append (a b : List Event) :
    printedTexts (a ++ b) = printedTexts a ++ printedTexts b := by
  simp [printedTexts, List.filterMap_append]

theorem printedTexts_map_out (ls : List String) :
    printedTexts (ls.map Event.out) = ls := by
  induction ls with
  | nil => rfl
  | cons a as ih => simpa [printedTexts] using ih

theorem printedTexts_preTrace (il sl : List String) (url ru resp : String) :
    printedTexts (preTrace il sl url ru resp)
      = il ++ sl ++ stepLines url ru := by
  simp only [preTrace, List.append_assoc, printedTexts_append, printedTexts_map_out]
  simp [printedTexts]

/-- Trace and exit of a run whose inspection succeeds and whose exchange
raises. -/
theorem run_raises_eq (env : RunEnv) (creds : Creds) (client_info : ClientInfo) (m : String)
    (henv : env.file = .parsed creds)
    (hinfo : lookupKey creds (clientTypeOf creds) = some client_info)
    (hex : env.exchange = .raises m) :
    generate_refresh_token env =
      (preTrace (inspectLines client_info (clientTypeOf creds))
          (selectRedirectUri (client_info.redirect_uris.getD [])).2
          env.authUrl
          (selectRedirectUri (client_info.redirect_uris.getD [])).1
          (pyStrip env.pastedLine)
        ++ (errorReport m).map Event.out,
       none) := by
  simp [generate_refresh_token, show_oauth_client_info, flowClientConfig, henv, hinfo, hex]

/-- Trace and exit of a run whose inspection succeeds and whose exchange
returns. -/
theorem run_success_eq (env : RunEnv) (creds : Creds) (client_info : ClientInfo) (rt : String)
    (henv : env.file = .parsed creds)
    (hinfo : lookupKey creds (clientTypeOf creds) = some client_info)
    (hex : env.exchange = .success rt) :
    generate_refresh_token env =
      (preTrace (inspectLines client_info (clientTypeOf creds))
          (selectRedirectUri (client_info.redirect_uris.getD [])).2
          env.authUrl
          (selectRedirectUri (client_info.redirect_uris.getD [])).1
          (pyStrip env.pastedLine)
        ++ (successReport client_info rt).map Event.out,
       none) := by
  simp [generate_refresh_token, show_oauth_client_info, flowClientConfig, henv, hinfo, hex]

/-! None of the failure-path prints is a credential line: each starts with a
character or prefix that differs from all six credential prefixes, whatever
the environment-supplied tail. -/

theorem isCred_clientId_line (x : String) :
    isCredentialReportLine ("Client ID: " ++ x) = false := rfl

theorem isCred_appType_line (x : String) :
    isCredentialReportLine ("App Type: " ++ x) = false := rfl

theorem isCred_indent_line (x : String) :
    isCredentialReportLine ("  - " ++ x) = false := rfl

theorem isCred_usingExisting_line (x : String) :
    isCredentialReportLine ("Using existing redirect URI: " ++ x) = false := rfl

theorem isCred_step2_line (x : String) :
    isCredentialReportLine
      ("\nSTEP 2: After authorizing, you'll be redirected to: " ++ x) = false := rfl

theorem isCred_error_line (x : String) :
    isCredentialReportLine ("\nError: " ++ x) = false := rfl

theorem inspectLines_benign (client_info : ClientInfo) (t : String) :
    ∀ l ∈ inspectLines client_info t, isCredentialReportLine l = false := by
  intro l hl
  cases h : client_info.redirect_uris with
  | none =>
    simp [inspectLines, redirectUriLines, h] at hl
    rcases hl with rfl | rfl | rfl | rfl | rfl | rfl | rfl <;>
      first
      | decide
      | exact isCred_clientId_line _
      | exact isCred_appType_line _
  | some uris =>
    simp [inspectLines, redirectUriLines, h] at hl
    rcases hl with rfl | rfl | rfl | rfl | rfl | rfl | ⟨u, _, rfl⟩ | rfl <;>
      first
      | decide
      | exact isCred_clientId_line _
      | exact isCred_appType_line _
      | exact isCred_indent_line _

theorem selLines_benign (uris : List String) :
    ∀ l ∈ (selectRedirectUri uris).2, isCredentialReportLine l = false := by
  intro l hl
  cases uris with
  | nil =>
    simp [selectRedirectUri] at hl
    rcases hl with rfl | rfl
    · decide
    · decide
  | cons u rest =>
    simp [selectRedirectUri] at hl
    subst hl
    exact isCred_usingExisting_line _

theorem stepLines_benign (url ru : String)
    (hurl : isCredentialReportLine url = false) :
    ∀ l ∈ stepLines url ru, isCredentialReportLine l = false := by
  intro l hl
  simp [stepLines] at hl
  rcases hl with rfl | rfl | rfl | rfl | rfl | rfl | rfl | rfl
  · decide
  · decide
  · exact hurl
  · decide
  · exact isCred_step2_line _
  · decide
  · decide
  · decide

theorem errorReport_benign (m : String) :
    ∀ l ∈ errorReport m, isCredentialReportLine l = false := by
  intro l hl
  simp [errorReport] at hl
  rcases hl with rfl | rfl | rfl | rfl | rfl
  · exact isCred_error_line _
  · decide
  · decide
  · decide
  · decide

/-- The authorization-URL build event of a run past inspection carries the
fixed parameters, and no other parameters ever occur. -/
theorem authUrlBuilt_mem_iff (il sl : List String) (url ru resp : String)
    (tail : List String) (p : AuthUrlParams) :
    (Event.authUrlBuilt p ∈ preTrace il sl url ru resp ++ tail.map Event.out)
      ↔ p = fixedAuthParams := by
  simp [preTrace]

/-- The token-exchange event of a run past inspection carries exactly the
response string the run computed. -/
theorem fetchToken_mem_iff (il sl : List String) (url ru resp : String)
    (tail : List String) (s : String) :
    (Event.fetchToken s ∈ preTrace il sl url ru resp ++ tail.map Event.out)
      ↔ s = resp := by
  simp [preTrace]

/-! Claim theorems. -/

/-- C1: redirect-target selection returns the first element of a non-empty
list of registered redirect URIs; on the empty list it returns the static
default `"http://localhost:8080/callback"` and emits the warning that the
operator must register that URI; it is a total function, so it never
fails. -/
theorem C1_select_redirect_target (uris : List String) :
    (∀ u rest, uris = u :: rest →
        selectRedirectUri uris = (u, ["Using existing redirect URI: " ++ u])) ∧
    (uris = [] →
        selectRedirectUri uris
          = ("http://localhost:8080/callback",
             ["Using default redirect URI: http://localhost:8080/callback",
              "Make sure you've added this URI to your OAuth client in Google Cloud Console!"])) := by
  constructor
  · rintro u rest rfl
    rfl
  · rintro rfl
    rfl

/-- Witness for C1 at a two-element list and at the empty list. -/
theorem C1_select_redirect_target_witness :
    selectRedirectUri ["http://a", "http://b"]
      = ("http://a", ["Using existing redirect URI: http://a"]) ∧
    (selectRedirectUri []).1 = "http://localhost:8080/callback" := by
  refine ⟨(C1_select_redirect_target ["http://a", "http://b"]).1 "http://a" ["http://b"] rfl, ?_⟩
  exact congrArg Prod.fst ((C1_select_redirect_target []).2 rfl)

/-- C2: when the exchange call raises with message `m`, the run prints the
error line carrying `m`, prints all three static remediation hints, makes no
print call that is a credential line (given the library-returned URL is not
one), and ends normally (no uncaught exception). -/
theorem C2_exchange_error_reporting (env : RunEnv) (creds : Creds)
    (client_info : ClientInfo) (m : String)
    (henv : env.file = .parsed creds)
    (hinfo : lookupKey creds (clientTypeOf creds) = some client_info)
    (hex : env.exchange = .raises m)
    (hurl : isCredentialReportLine env.authUrl = false) :
    ("\nError: " ++ m) ∈ printedTexts (generate_refresh_token env).1 ∧
    "1. Redirect URI mismatch - check your OAuth client configuration"
        ∈ printedTexts (generate_refresh_token env).1 ∧
    "2. Invalid authorization code - try generating a new auth URL"
        ∈ printedTexts (generate_refresh_token env).1 ∧
    "3. Network issues - check your internet connection"
        ∈ printedTexts (generate_refresh_token env).1 ∧
    (∀ l ∈ printedTexts (generate_refresh_token env).1,
        isCredentialReportLine l = false) ∧
    (generate_refresh_token env).2 = none := by
  rw [run_raises_eq env creds client_info m henv hinfo hex]
  have htexts :
      printedTexts
        (preTrace (inspectLines client_info (clientTypeOf creds))
            (selectRedirectUri (client_info.redirect_uris.getD [])).2
            env.authUrl
            (selectRedirectUri (client_info.redirect_uris.getD [])).1
            (pyStrip env.pastedLine)
          ++ (errorReport m).map Event.out,
         (none : Option PyError)).1
        = inspectLines client_info (clientTypeOf creds)
          ++ (selectRedirectUri (client_info.redirect_uris.getD [])).2
          ++ stepLines env.authUrl (selectRedirectUri (client_info.redirect_uris.getD [])).1
          ++ errorReport m := by
    rw [printedTexts_append, printedTexts_preTrace, printedTexts_map_out]
  rw [htexts]
  refine ⟨?_, ?_, ?_, ?_, ?_, rfl⟩
  · simp [errorReport]
  · simp [errorReport]
  · simp [errorReport]
  · simp [errorReport]
  · intro l hl
    rcases List.mem_append.1 hl with hl | hl
    · rcases List.mem_append.1 hl with hl | hl
      · rcases List.mem_append.1 hl with hl | hl
        · exact inspectLines_benign _ _ _ hl
        · exact selLines_benign _ _ hl
      · exact stepLines_benign _ _ hurl _ hl
    · exact errorReport_benign _ _ hl

/-- Witness for C2 at a concrete failing run with message
`"invalid_grant"`. -/
theorem C2_exchange_error_reporting_witness :
    "\nError: invalid_grant" ∈ printedTexts (generate_refresh_token sampleFailEnv).1 ∧
    (∀ l ∈ printedTexts (generate_refresh_token sampleFailEnv).1,
        isCredentialReportLine l = false) ∧
    (generate_refresh_token sampleFailEnv).2 = none := by
  have h := C2_exchange_error_reporting sampleFailEnv sampleCreds sampleInfo
      "invalid_grant" rfl (by decide) rfl (by decide)
  exact ⟨h.1, h.2.2.2.2.1, h.2.2.2.2.2⟩

/-- C3: when the exchange succeeds with refresh token `rt`, the run prints
the three literal environment-variable lines, echoing the client ID and
client secret of the loaded configuration, and ends normally. -/
theorem C3_success_report (env : RunEnv) (creds : Creds)
    (client_info : ClientInfo) (rt : String)
    (henv : env.file = .parsed creds)
    (hinfo : lookupKey creds (clientTypeOf creds) = some client_info)
    (hex : env.exchange = .success rt) :
    ("GOOGLE_ADS_CLIENT_ID=" ++ client_info.client_id)
        ∈ printedTexts (generate_refresh_token env).1 ∧
    ("GOOGLE_ADS_CLIENT_SECRET=" ++ client_info.client_secret)
        ∈ printedTexts (generate_refresh_token env).1 ∧
    ("GOOGLE_ADS_REFRESH_TOKEN=" ++ rt)
        ∈ printedTexts (generate_refresh_token env).1 ∧
    (generate_refresh_token env).2 = none := by
  rw [run_success_eq env creds client_info rt henv hinfo hex]
  refine ⟨?_, ?_, ?_, rfl⟩ <;>
    simp [printedTexts, printedTexts_append, printedTexts_preTrace,
      printedTexts_map_out, successReport]

/-- Witness for C3 at a concrete successful run with `client_id="X"`,
`client_secret="Y"`, `refresh_token="R"`. -/
theorem C3_success_report_witness :
    "GOOGLE_ADS_CLIENT_ID=X" ∈ printedTexts (generate_refresh_token sampleOkEnv).1 ∧
    "GOOGLE_ADS_CLIENT_SECRET=Y" ∈ printedTexts (generate_refresh_token sampleOkEnv).1 ∧
    "GOOGLE_ADS_REFRESH_TOKEN=R" ∈ printedTexts (generate_refresh_token sampleOkEnv).1 := by
  have h := C3_success_report sampleOkEnv sampleCreds sampleInfo "R" rfl (by decide) rfl
  exact ⟨h.1, h.2.1, h.2.2.1⟩

/-- C4: a missing or malformed (non-JSON) configuration file makes the run
die inside the inspect step with an uncaught exception: the trace is empty,
so no authorization URL was built, no input was read and no exchange call
was made, and the exit carries the uncaught error (the exchange-step handler
did not catch it). -/
theorem C4_config_load_failure (env : RunEnv) :
    (env.file = .missing →
        generate_refresh_token env = ([], some .fileNotFound)) ∧
    (env.file = .notJson →
        generate_refresh_token env = ([], some .jsonDecodeError)) := by
  constructor <;> intro h <;>
    simp [generate_refresh_token, show_oauth_client_info, h]

/-- Witness for C4 at a concrete missing file and a concrete non-JSON
file. -/
theorem C4_config_load_failure_witness :
    generate_refresh_token sampleMissingEnv = ([], some .fileNotFound) ∧
    generate_refresh_token sampleNotJsonEnv = ([], some .jsonDecodeError) :=
  ⟨(C4_config_load_failure sampleMissingEnv).1 rfl,
   (C4_config_load_failure sampleNotJsonEnv).2 rfl⟩

/-- C5: every run past inspection builds the authorization request exactly
once and with exactly the fixed parameters: the single advertising-API
scope, `access_type="offline"`, `include_granted_scopes="true"`, and
`prompt="consent"`; no build with other parameters occurs. -/
theorem C5_auth_request_params (env : RunEnv) (creds : Creds)
    (client_info : ClientInfo)
    (henv : env.file = .parsed creds)
    (hinfo : lookupKey creds (clientTypeOf creds) = some client_info) :
    Event.authUrlBuilt fixedAuthParams ∈ (generate_refresh_token env).1 ∧
    (∀ p, Event.authUrlBuilt p ∈ (generate_refresh_token env).1
        → p = fixedAuthParams) ∧
    fixedAuthParams.scopes = ["https://www.googleapis.com/auth/adwords"] ∧
    fixedAuthParams.access_type = "offline" ∧
    fixedAuthParams.include_granted_scopes = "true" ∧
    fixedAuthParams.prompt = "consent" := by
  refine ⟨?_, ?_, rfl, rfl, rfl, rfl⟩ <;>
    cases hex : env.exchange with
  | success rt =>
    rw [run_success_eq env creds client_info rt henv hinfo hex]
    first
    | exact (authUrlBuilt_mem_iff _ _ _ _ _ _ _).2 rfl
    | exact fun p hp => (authUrlBuilt_mem_iff _ _ _ _ _ _ _).1 hp
  | raises m =>
    rw [run_raises_eq env creds client_info m henv hinfo hex]
    first
    | exact (authUrlBuilt_mem_iff _ _ _ _ _ _ _).2 rfl
    | exact fun p hp => (authUrlBuilt_mem_iff _ _ _ _ _ _ _).1 hp

/-- Witness for C5 at a concrete successful run. -/
theorem C5_auth_request_params_witness :
    Event.authUrlBuilt fixedAuthParams ∈ (generate_refresh_token sampleOkEnv).1 ∧
    fixedAuthParams.prompt = "consent" := by
  have h := C5_auth_request_params sampleOkEnv sampleCreds sampleInfo rfl (by decide)
  exact ⟨h.1, h.2.2.2.2.2⟩

/-- C6: on a well-formed configuration (one of the two recognised keys names
the client section), the inspect step succeeds, the client type is `"web"`
exactly when that key is present and `"installed"` when it is not, the
summary prints the client ID, the type and each redirect URI, and the
returned list is the `redirect_uris` field, the empty list when that field
is absent. -/
theorem C6_inspect_configuration (creds : Creds) (client_info : ClientInfo)
    (h : creds.web = some client_info ∨
        (creds.web = none ∧ creds.installed = some client_info)) :
    show_oauth_client_info (.parsed creds)
      = .ok (inspectLines client_info (clientTypeOf creds),
             client_info.redirect_uris.getD []) ∧
    (creds.web.isSome = true → clientTypeOf creds = "web") ∧
    (creds.web = none → clientTypeOf creds = "installed") ∧
    ("Client ID: " ++ client_info.client_id)
        ∈ inspectLines client_info (clientTypeOf creds) ∧
    ("App Type: " ++ clientTypeOf creds)
        ∈ inspectLines client_info (clientTypeOf creds) ∧
    (∀ uris, client_info.redirect_uris = some uris →
        ∀ u ∈ uris, ("  - " ++ u) ∈ inspectLines client_info (clientTypeOf creds)) ∧
    (client_info.redirect_uris = none →
        show_oauth_client_info (.parsed creds)
          = .ok (inspectLines client_info (clientTypeOf creds), [])) := by
  have hlk : lookupKey creds (clientTypeOf creds) = some client_info := by
    rcases h with hw | ⟨hw, hi⟩
    · simp [clientTypeOf, lookupKey, hw]
    · simp [clientTypeOf, lookupKey, hw, hi]
  refine ⟨?_, ?_, ?_, ?_, ?_, ?_, ?_⟩
  · simp [show_oauth_client_info, hlk]
  · intro hw
    simp [clientTypeOf, hw]
  · intro hw
    simp [clientTypeOf, hw]
  · simp [inspectLines]
  · simp [inspectLines]
  · intro uris hu u hu2
    refine List.mem_append_left _ (List.mem_append_right _ ?_)
    simp [redirectUriLines, hu]
    exact Or.inr ⟨u, hu2, rfl⟩
  · intro hru
    simp [show_oauth_client_info, hlk, hru]

/-- Witness for C6 at a concrete `"web"` configuration. -/
theorem C6_inspect_configuration_witness :
    show_oauth_client_info (.parsed sampleCreds)
      = .ok (inspectLines sampleInfo (clientTypeOf sampleCreds),
             ["http://localhost:8080/callback"]) ∧
    "Client ID: X" ∈ inspectLines sampleInfo (clientTypeOf sampleCreds) := by
  have h := C6_inspect_configuration sampleCreds sampleInfo (Or.inl rfl)
  exact ⟨h.1, h.2.2.2.1⟩

/-- C7: the inspect step is a pure read: it leaves the file state untouched,
and running it twice on the same unmodified file gives identical results
(displayed metadata and returned redirect-URI list). -/
theorem C7_inspect_idempotent (fs : FileOutcome) :
    (show_oauth_client_info_st fs).2
        = (show_oauth_client_info_st (show_oauth_client_info_st fs).1).2 ∧
    (show_oauth_client_info_st (show_oauth_client_info_st fs).1).1 = fs :=
  ⟨rfl, rfl⟩

/-- C8: module import sets `OAUTHLIB_INSECURE_TRANSPORT` to `"1"`
unconditionally, leaves every other environment variable as it was, and the
flow itself never touches the process environment (the final environment is
the same whatever the run does). -/
theorem C8_insecure_transport_flag (osenv : String → Option String) (env : RunEnv) :
    (runProgram osenv env).2 "OAUTHLIB_INSECURE_TRANSPORT" = some "1" ∧
    (∀ k, k ≠ "OAUTHLIB_INSECURE_TRANSPORT" → (runProgram osenv env).2 k = osenv k) ∧
    ∀ env2 : RunEnv, (runProgram osenv env2).2 = (runProgram osenv env).2 := by
  refine ⟨?_, ?_, fun env2 => rfl⟩
  · simp [runProgram, moduleImport]
  · intro k hk
    simp [runProgram, moduleImport, hk]

/-- Witness for C8 at a concrete environment and a concrete unrelated
key. -/
theorem C8_insecure_transport_flag_witness :
    (runProgram sampleOsEnv sampleFailEnv).2 "OAUTHLIB_INSECURE_TRANSPORT" = some "1" ∧
    (runProgram sampleOsEnv sampleFailEnv).2 "PATH" = some "/usr/bin" := by
  have h := C8_insecure_transport_flag sampleOsEnv sampleFailEnv
  exact ⟨h.1, (h.2.1 "PATH" (by decide)).trans rfl⟩

/-- C9: the string the run passes to the token-exchange call is exactly the
pasted line with leading and trailing whitespace stripped, and no exchange
call with any other string occurs. -/
theorem C9_input_stripped (env : RunEnv) (creds : Creds) (client_info : ClientInfo)
    (henv : env.file = .parsed creds)
    (hinfo : lookupKey creds (clientTypeOf creds) = some client_info) :
    Event.fetchToken (pyStrip env.pastedLine) ∈ (generate_refresh_token env).1 ∧
    ∀ s, Event.fetchToken s ∈ (generate_refresh_token env).1
        → s = pyStrip env.pastedLine := by
  cases hex : env.exchange with
  | success rt =>
    rw [run_success_eq env creds client_info rt henv hinfo hex]
    exact ⟨(fetchToken_mem_iff _ _ _ _ _ _ _).2 rfl,
      fun s hs => (fetchToken_mem_iff _ _ _ _ _ _ _).1 hs⟩
  | raises m =>
    rw [run_raises_eq env creds client_info m henv hinfo hex]
    exact ⟨(fetchToken_mem_iff _ _ _ _ _ _ _).2 rfl,
      fun s hs => (fetchToken_mem_iff _ _ _ _ _ _ _).1 hs⟩

/-- Witness for C9 at a concrete run whose pasted line is padded with
ideographic space, line separator and no-break space besides ASCII spaces:
the exchange call receives the line with all of them stripped. -/
theorem C9_input_stripped_witness :
    pyStrip sampleUnicodeEnv.pastedLine = "http://localhost:8080/callback?code=4/abc" ∧
    Event.fetchToken (pyStrip sampleUnicodeEnv.pastedLine)
      ∈ (generate_refresh_token sampleUnicodeEnv).1 := by
  have h := C9_input_stripped sampleUnicodeEnv sampleCreds sampleInfo rfl (by decide)
  exact ⟨by decide, h.1⟩

/-- C10: with both top-level keys present the `"web"` section is used and
`"installed"` is ignored; with neither key present the inspect step fails
with a key-lookup error on `"installed"`. -/
theorem C10_key_preference (creds : Creds) (w i : ClientInfo) :
    (creds.web = some w → creds.installed = some i →
        show_oauth_client_info (.parsed creds)
          = .ok (inspectLines w "web", w.redirect_uris.getD [])) ∧
    (creds.web = none → creds.installed = none →
        show_oauth_client_info (.parsed creds) = .error (.keyError "installed")) := by
  constructor
  · intro hw hi
    simp [show_oauth_client_info, clientTypeOf, lookupKey, hw]
  · intro hw hi
    simp [show_oauth_client_info, clientTypeOf, lookupKey, hw, hi]

/-- Witness for C10 at a configuration with both keys and one with
neither. -/
theorem C10_key_preference_witness :
    show_oauth_client_info (.parsed sampleBothCreds)
      = .ok (inspectLines sampleInfo "web", ["http://localhost:8080/callback"]) ∧
    show_oauth_client_info (.parsed sampleEmptyCreds) = .error (.keyError "installed") := by
  have h1 := (C10_key_preference sampleBothCreds sampleInfo
      ⟨"I", "S", none⟩).1 rfl rfl
  have h2 := (C10_key_preference sampleEmptyCreds sampleInfo sampleInfo).2 rfl rfl
  exact ⟨h1, h2⟩

end GenRefreshToken
